import Mathlib

/-!
Verification of the object-to-wire mapping layer of a ShipStation API client
(`shipstation/models.py`, `shipstation/api.py`, `shipstation/aio.py`).

Python strings are embedded as lists of code points (`List Nat`), so that the
ASCII case arithmetic of the naming converter can be settled with `omega`.
Python runtime values are embedded as the inductive `PyValue`; fallible Python
code (code that can raise) is embedded as functions into `Except PyError`.
A raised exception aborts the caller, so an `Except.error` result models
"the operation raised and produced no new state".
-/

namespace ShipStation

/-- Errors raised by the library. Python raises `AttributeError` for every
validation failure (`require_attribute`, `require_type`, `require_membership`,
invalid enum values, invalid parameter keys); `TypeError` and `NameError`
model failures coming from the Python runtime itself. -/
inductive PyError where
  | attributeError (msg : String)
  | typeError (msg : String)
  | nameError (msg : String)
  deriving DecidableEq

mutual
/-- A Python runtime value, restricted to the shapes this library traffics in.
`obj className fields` is an entity instance (its `__dict__`/slot contents);
`cls` is a class object (something for which `isinstance(v, type)` holds).
Lists and dictionaries are stored through the mutual types `PyValueList` and
`PyFieldList` (plain lists of values / of key-value pairs). -/
inductive PyValue where
  | none
  | bool (b : Bool)
  | int (n : ℤ)
  | decimal (q : ℚ)
  | str (s : String)
  | list (xs : PyValueList)
  | dict (entries : PyFieldList)
  | obj (className : String) (fields : PyFieldList)
  | cls (className : String)
  deriving DecidableEq

inductive PyValueList where
  | nil
  | cons (hd : PyValue) (tl : PyValueList)
  deriving DecidableEq

inductive PyFieldList where
  | nil
  | cons (key : String) (val : PyValue) (tl : PyFieldList)
  deriving DecidableEq
end

/-- Package a plain list of values as a `PyValueList`. -/
def PyValueList.ofList : List PyValue → PyValueList
  | [] => .nil
  | v :: vs => .cons v (PyValueList.ofList vs)

/-- Package a plain association list as a `PyFieldList`. -/
def PyFieldList.ofList : List (String × PyValue) → PyFieldList
  | [] => .nil
  | kv :: kvs => .cons kv.1 kv.2 (PyFieldList.ofList kvs)

/-- Unpack a `PyValueList` into a plain list. -/
def PyValueList.toList : PyValueList → List PyValue
  | .nil => []
  | .cons v vs => v :: PyValueList.toList vs

/-- Unpack a `PyFieldList` into a plain association list. -/
def PyFieldList.toList : PyFieldList → List (String × PyValue)
  | .nil => []
  | .cons k v kvs => (k, v) :: PyFieldList.toList kvs

/-- A Python list value built from a plain list. -/
def PyValue.listL (xs : List PyValue) : PyValue := .list (.ofList xs)

/-- A Python dict value built from a plain association list. -/
def PyValue.dictL (kvs : List (String × PyValue)) : PyValue := .dict (.ofList kvs)

/-- A Python entity instance built from its class name and attribute list. -/
def PyValue.objL (className : String) (kvs : List (String × PyValue)) : PyValue :=
  .obj className (.ofList kvs)

/-! ## Naming converter (`ShipStationBase.to_camel_case` / `to_snake_case`)

The converter works on ASCII text (snake_case identifiers), so we embed the
relevant fragment of Python's `str.lower`, `str.title` and of the regex
`([a-z0-9])([A-Z])` on code points. -/

/-- Code-point class `[a-z]`. -/
def isLowerCode (n : Nat) : Bool := 97 ≤ n && n ≤ 122

/-- Code-point class `[A-Z]`. -/
def isUpperCode (n : Nat) : Bool := 65 ≤ n && n ≤ 90

/-- Code-point class `[0-9]`. -/
def isDigitCode (n : Nat) : Bool := 48 ≤ n && n ≤ 57

/-- A cased (ASCII alphabetic) code point, the word-character notion used by
Python's `str.title`. -/
def isAlphaCode (n : Nat) : Bool := isUpperCode n || isLowerCode n

/-- `str.lower` on one ASCII code point. -/
def lowerCode (n : Nat) : Nat := if isUpperCode n then n + 32 else n

/-- `str.upper` on one ASCII code point. -/
def upperCode (n : Nat) : Nat := if isLowerCode n then n - 32 else n

/-- The code point of the underscore. -/
def USCORE : Nat := 95

/-- `name.split("_")`: splits at every underscore, keeping empty pieces, and
always returns at least one piece. -/
def splitUnderscore : List Nat → List (List Nat)
  | [] => [[]]
  | c :: rest =>
    match splitUnderscore rest with
    | [] => [[c]]
    | s :: ss => if c = USCORE then [] :: s :: ss else (c :: s) :: ss

/-- The scanner of Python's `str.title`: a cased character is uppercased when
the previous character was not cased, lowercased otherwise. -/
def pyTitleGo : List Nat → Bool → List Nat
  | [], _ => []
  | c :: cs, prevCased =>
    (if isAlphaCode c then (if prevCased then lowerCode c else upperCode c) else c)
      :: pyTitleGo cs (isAlphaCode c)

/-- Python's `str.title` on one underscore-free token. -/
def pyTitle (w : List Nat) : List Nat := pyTitleGo w false

/-- `ShipStationBase.to_camel_case` (models.py:36-40):
`tokens = name.lower().split("_")`, then the first token followed by the
title-cased remaining tokens, concatenated. -/
def toCamelCodes (name : List Nat) : List Nat :=
  match splitUnderscore (name.map lowerCode) with
  | [] => []
  | first :: rest => first ++ (rest.map pyTitle).flatten

/-- The scanner of `re.sub("([a-z0-9])([A-Z])", r"\1_\2", name)`. The regex
engine scans left to right; when the two-character pattern matches, the pair is
replaced by `\1_\2` and scanning resumes after `\2`, so matches never overlap.
Equivalently, one character at a time: `prevEligible` records whether the
previously emitted character may serve as `\1` (it is in `[a-z0-9]` and was not
already consumed as the `\2` of a match). -/
def snakeGo : List Nat → Bool → List Nat
  | [], _ => []
  | c :: cs, prevEligible =>
    if prevEligible && isUpperCode c then
      USCORE :: c :: snakeGo cs false
    else
      c :: snakeGo cs (isLowerCode c || isDigitCode c)

/-- `re.sub("([a-z0-9])([A-Z])", r"\1_\2", name)` in full: the first character
is emitted as is (the pattern needs a predecessor) and the scan proceeds. -/
def snakeSub : List Nat → List Nat
  | [] => []
  | a :: rest => a :: snakeGo rest (isLowerCode a || isDigitCode a)

/-- `ShipStationBase.to_snake_case` (models.py:42-44): the regex substitution
followed by `.lower()`. -/
def toSnakeCodes (name : List Nat) : List Nat := (snakeSub name).map lowerCode

/-- Embedding of a Lean string literal as a Python string (its code points). -/
def codes (s : String) : List Nat := s.data.map Char.toNat

/-- Decoding a code-point string back to a Lean string, for the `String`-keyed
dictionaries used by the entity model. -/
def decodeCodes (l : List Nat) : String := ⟨l.map Char.ofNat⟩

/-- `to_camel_case` as a function on `String` keys. -/
def to_camel_case (s : String) : String := decodeCodes (toCamelCodes (codes s))

/-- `to_snake_case` as a function on `String` keys. -/
def to_snake_case (s : String) : String := decodeCodes (toSnakeCodes (codes s))

/-! ## Shared helpers -/

/-- Whether an `Except` result is a success. -/
def exceptOk {α : Type} : Except PyError α → Bool
  | .ok _ => true
  | .error _ => false

instance {ε α : Type} [DecidableEq ε] [DecidableEq α] :
    DecidableEq (Except ε α) := fun x y =>
  match x, y with
  | .ok a, .ok b =>
    match decEq a b with
    | isTrue h => isTrue (by rw [h])
    | isFalse h => isFalse (fun hh => h (Except.ok.inj hh))
  | .error e, .error f =>
    match decEq e f with
    | isTrue h => isTrue (by rw [h])
    | isFalse h => isFalse (fun hh => h (Except.error.inj hh))
  | .ok _, .error _ => isFalse (fun hh => Except.noConfusion hh)
  | .error _, .ok _ => isFalse (fun hh => Except.noConfusion hh)

/-- A Python list comprehension `[f(x) for x in xs]` over fallible `f`:
elements are evaluated left to right and the first exception propagates. -/
def exceptMap {α β : Type} (f : α → Except PyError β) : List α → Except PyError (List β)
  | [] => .ok []
  | a :: as =>
    match f a with
    | .error e => .error e
    | .ok b =>
      match exceptMap f as with
      | .error e => .error e
      | .ok bs => .ok (b :: bs)

/-- Python truthiness of an optional string: `None` and `""` are falsy. -/
def pyFalsyStr : Option String → Bool
  | Option.none => true
  | some s => s = ""

/-- Attribute assignment `setattr(self, k, v)` viewed on the attribute
dictionary: overwrite an existing binding in place, else append. -/
def assocSet (d : List (String × PyValue)) (k : String) (v : PyValue) :
    List (String × PyValue) :=
  if d.any (fun kv => kv.1 = k) then
    d.map (fun kv => if kv.1 = k then (k, v) else kv)
  else
    d ++ [(k, v)]

/-- The numeric result of a Python arithmetic expression over the `int` and
`Decimal` inputs this library mixes: an integral result is an `int` (as in
`3 * 2` or `sum([])`), anything else a `Decimal`. -/
def numVal (q : ℚ) : PyValue := if q.den = 1 then .int q.num else .decimal q

/-- An optional string attribute as a raw Python value. -/
def optStrVal : Option String → PyValue
  | Option.none => .none
  | some s => .str s

/-- An optional numeric attribute as a raw Python value. -/
def optNumVal : Option ℚ → PyValue
  | Option.none => .none
  | some q => numVal q

/-! ## Validation helpers (`ShipStationBase`, models.py:57-75) -/

/-- `require_attribute` (models.py:57-59): fails when the attribute is falsy. -/
def require_attribute (v : Option String) (name : String) : Except PyError Unit :=
  if pyFalsyStr v then
    .error (.attributeError (name ++ " is a required attribute"))
  else
    .ok ()

/-- `require_type(value, Decimal)` (models.py:61-67): `None` passes, a
`Decimal` passes, anything else raises. -/
def require_type_decimal (v : PyValue) : Except PyError Unit :=
  match v with
  | .none => .ok ()
  | .decimal _ => .ok ()
  | _ => .error (.attributeError "must be of type Decimal")

/-- `ShipStationBase._validate_parameters` (models.py:73-75). The source
checks only that `parameters` is a dict and then camel-cases its keys; the
`valid_parameters` argument is received but never consulted. -/
def validate_parameters (parameters : List (String × PyValue))
    (valid_parameters : List String) : Except PyError (List (String × PyValue)) :=
  -- self.require_type(parameters, dict) — satisfied by the embedding's type
  let _ := valid_parameters
  .ok (parameters.map (fun kv => (to_camel_case kv.1, kv.2)))

/-! ## Serialization machinery (`ShipStationBase.as_dict` / `json`) -/

/-- `ShipStationBase.as_dict` (models.py:46-55): the attribute dictionary with
every key renamed to camelCase (both the `__dict__` and `__slots__` branches
produce exactly this). -/
def as_dict_base (fields : List (String × PyValue)) : List (String × PyValue) :=
  fields.map (fun kv => (to_camel_case kv.1, kv.2))

mutual
/-- Whether `json.dumps` accepts a value: `None`, `bool`, `int`, `str` and
containers of such; `Decimal`, entity instances and class objects raise
`TypeError` (float does not occur in this model). -/
def jsonDumpable : PyValue → Bool
  | .none => true
  | .bool _ => true
  | .int _ => true
  | .str _ => true
  | .decimal _ => false
  | .list xs => jsonDumpableL xs
  | .dict kvs => jsonDumpableF kvs
  | .obj _ _ => false
  | .cls _ => false

/-- `jsonDumpable` over a value list. -/
def jsonDumpableL : PyValueList → Bool
  | .nil => true
  | .cons v tl => jsonDumpable v && jsonDumpableL tl

/-- `jsonDumpable` over a field list. -/
def jsonDumpableF : PyFieldList → Bool
  | .nil => true
  | .cons _ v tl => jsonDumpable v && jsonDumpableF tl
end

/-- `json.dumps`, modelled as validating serializability and returning the
value tree that the emitted JSON text denotes. -/
def json_dumps (v : PyValue) : Except PyError PyValue :=
  if jsonDumpable v then .ok v
  else .error (.typeError "Object is not JSON serializable")

/-- The string representation `str(n)` of a Python int. -/
def intStr (n : ℤ) : String := toString n

/-- The string representation `str(d)` of a Python Decimal (representation
detail abstracted as the rational's print form). -/
def decimalStr (q : ℚ) : String := toString q

/-- The per-value coercion loop of `ShipStationBase.json` (models.py:90-96):
booleans become the strings "true"/"false"; int/float/Decimal become their
`str`; for any other value the guard `isinstance(value, type) and
value.__class__.split(".")[-1] in __all__` is evaluated — it is `False` for
every instance (an instance is not a `type`), so entity instances pass
through unchanged, and for an actual class object `value.__class__` is
`type`, which has no `.split`, so the guard itself raises `AttributeError`. -/
def json_coerce_value (v : PyValue) : Except PyError PyValue :=
  match v with
  | .bool b => .ok (.str (if b then "true" else "false"))
  | .int n => .ok (.str (intStr n))
  | .decimal q => .ok (.str (decimalStr q))
  | .cls _ => .error (.attributeError "type object type has no attribute split")
  | v => .ok v

/-- `ShipStationBase.json` (models.py:88-97): `as_dict`, the coercion loop
over its entries, then `json.dumps`. -/
def base_json (fields : List (String × PyValue)) : Except PyError PyValue :=
  match exceptMap
      (fun kv => match json_coerce_value kv.2 with
        | .error e => .error e
        | .ok v => .ok (kv.1, v))
      (as_dict_base fields) with
  | .error e => .error e
  | .ok j => json_dumps (.dictL j)

/-! ## Entity model (models.py)

Each entity is a structure whose fields mirror the Python attributes
(`__init__` assignments / `__slots__`). Attributes that the claims exercise
with a specific Python type are given that type (`Option String`,
`Option ℚ`, nested entity options); the rest stay generic `PyValue`.
For each entity, `xFields` lists the raw attribute dictionary in the
source's attribute order, so `as_dict_base ∘ xFields` is exactly the
inherited `ShipStationBase.as_dict`. -/

/-- `ShipStationWeight` (models.py:224-240): slots `units`, `value`,
`WeightUnits`; `__init__` leaves `WeightUnits = None`. -/
structure ShipStationWeight where
  units : Option String
  value : Option ℚ
  WeightUnits : Option String
  deriving DecidableEq

/-- `ShipStationWeight(units, value)`. -/
def mkWeight (units : Option String) (value : Option ℚ) : ShipStationWeight :=
  { units := units, value := value, WeightUnits := Option.none }

/-- Raw attributes of a weight, in slot order. -/
def weightFields (w : ShipStationWeight) : List (String × PyValue) :=
  [("units", optStrVal w.units), ("value", optNumVal w.value),
   ("WeightUnits", optStrVal w.WeightUnits)]

/-- `ShipStationWeight.as_dict` (models.py:239-240): a custom dict
`{"value": value, "units": WeightUnits}` (note: the validated `WeightUnits`,
not `units`). -/
def weight_as_dict (w : ShipStationWeight) : List (String × PyValue) :=
  [("value", optNumVal w.value), ("units", optStrVal w.WeightUnits)]

/-- `ShipStationContainer` (models.py:243-262). -/
structure ShipStationContainer where
  units : PyValue
  length : PyValue
  width : PyValue
  height : PyValue
  weight : Option ShipStationWeight
  deriving DecidableEq

/-- Raw attributes of a container, in `__init__` order. -/
def containerFields (c : ShipStationContainer) : List (String × PyValue) :=
  [("units", c.units), ("length", c.length), ("width", c.width),
   ("height", c.height),
   ("weight", match c.weight with
     | some w => .objL "ShipStationWeight" (weightFields w)
     | Option.none => .none)]

/-- `ShipStationContainer.as_dict` (models.py:260-262): when `weight` is set
the source evaluates the bare name `__setattr__`, which is not defined as a
global, so the call raises `NameError`; with no weight it returns the base
dict. -/
def container_as_dict (c : ShipStationContainer) :
    Except PyError (List (String × PyValue)) :=
  match c.weight with
  | some _ => .error (.nameError "name __setattr__ is not defined")
  | Option.none => .ok (as_dict_base (containerFields c))

/-- `ShipStationItem` (models.py:265-293). -/
structure ShipStationItem where
  key : PyValue
  sku : PyValue
  name : PyValue
  image_url : PyValue
  weight : Option ShipStationWeight
  quantity : Option ℚ
  unit_price : PyValue
  warehouse_location : PyValue
  options : PyValue
  deriving DecidableEq

/-- `ShipStationItem()` with every argument left at its `None` default. -/
def mkItem : ShipStationItem :=
  { key := .none, sku := .none, name := .none, image_url := .none,
    weight := Option.none, quantity := Option.none, unit_price := .none,
    warehouse_location := .none, options := .none }

/-- Raw attributes of an item, in `__init__` assignment order. -/
def itemFields (it : ShipStationItem) : List (String × PyValue) :=
  [("key", it.key), ("sku", it.sku), ("name", it.name),
   ("image_url", it.image_url),
   ("weight", match it.weight with
     | some w => .objL "ShipStationWeight" (weightFields w)
     | Option.none => .none),
   ("quantity", optNumVal it.quantity), ("unit_price", it.unit_price),
   ("warehouse_location", it.warehouse_location), ("options", it.options)]

/-- `ShipStationItem.as_dict` (models.py:291-293): same shape as the
container's — a set weight makes it evaluate the undefined global
`__setattr__` and raise `NameError`. -/
def item_as_dict (it : ShipStationItem) :
    Except PyError (List (String × PyValue)) :=
  match it.weight with
  | some _ => .error (.nameError "name __setattr__ is not defined")
  | Option.none => .ok (as_dict_base (itemFields it))

/-- `ShipStationAddress` (models.py:296-335). -/
structure ShipStationAddress where
  name : PyValue
  company : PyValue
  street1 : PyValue
  street2 : PyValue
  street3 : PyValue
  city : PyValue
  state : PyValue
  postal_code : PyValue
  country : PyValue
  phone : PyValue
  residential : PyValue
  deriving DecidableEq

/-- Raw attributes of an address, in slot order. -/
def addressFields (a : ShipStationAddress) : List (String × PyValue) :=
  [("name", a.name), ("company", a.company), ("street1", a.street1),
   ("street2", a.street2), ("street3", a.street3), ("city", a.city),
   ("state", a.state), ("postal_code", a.postal_code),
   ("country", a.country), ("phone", a.phone),
   ("residential", a.residential)]

/-- `ShipStationAddress.as_dict` is the inherited base `as_dict`. -/
def address_as_dict (a : ShipStationAddress) : List (String × PyValue) :=
  as_dict_base (addressFields a)

/-- `ShipStationCustomsItem` (models.py:162-183). -/
structure ShipStationCustomsItem where
  description : Option String
  quantity : PyValue
  value : PyValue
  harmonized_tariff_code : Option String
  country_of_origin : Option String
  deriving DecidableEq

/-- `ShipStationCustomsItem.__init__` (models.py:163-183): assigns the
attributes, then requires `description`, `harmonized_tariff_code` and
`country_of_origin` to be truthy (`description` is checked twice, as in the
source), requires `value` to be absent or a `Decimal`, and requires
`country_of_origin` to have length exactly 2 (CPython's `is not` on small
ints behaves as `≠` here). -/
def customs_item_init (description : Option String) (quantity value : PyValue)
    (harmonized_tariff_code country_of_origin : Option String) :
    Except PyError ShipStationCustomsItem :=
  match require_attribute description "description" with
  | .error e => .error e
  | .ok _ =>
  match require_attribute harmonized_tariff_code "harmonized_tariff_code" with
  | .error e => .error e
  | .ok _ =>
  match require_attribute country_of_origin "country_of_origin" with
  | .error e => .error e
  | .ok _ =>
  match require_attribute description "description" with
  | .error e => .error e
  | .ok _ =>
  match require_type_decimal value with
  | .error e => .error e
  | .ok _ =>
  if (country_of_origin.getD "").length ≠ 2 then
    .error (.attributeError "country_of_origin must be two characters")
  else
    .ok { description := description, quantity := quantity, value := value,
          harmonized_tariff_code := harmonized_tariff_code,
          country_of_origin := country_of_origin }

/-- Raw attributes of a customs item, in `__init__` assignment order. -/
def customsItemFields (ci : ShipStationCustomsItem) : List (String × PyValue) :=
  [("description", optStrVal ci.description), ("quantity", ci.quantity),
   ("value", ci.value),
   ("harmonized_tariff_code", optStrVal ci.harmonized_tariff_code),
   ("country_of_origin", optStrVal ci.country_of_origin)]

/-- `ShipStationCustomsItem.as_dict` is the inherited base `as_dict`. -/
def customs_item_as_dict (ci : ShipStationCustomsItem) : List (String × PyValue) :=
  as_dict_base (customsItemFields ci)

/-- `ShipStationInternationalOptions` (models.py:186-221). -/
structure ShipStationInternationalOptions where
  customs_items : List ShipStationCustomsItem
  contents : Option String
  non_delivery : Option String
  deriving DecidableEq

/-- Raw attributes of an international-options block, in `__init__`
assignment order (`customs_items` first). -/
def intlFields (x : ShipStationInternationalOptions) : List (String × PyValue) :=
  [("customs_items",
    .listL (x.customs_items.map (fun ci =>
      .objL "ShipStationCustomsItem" (customsItemFields ci)))),
   ("contents", optStrVal x.contents),
   ("non_delivery", optStrVal x.non_delivery)]

/-- `ShipStationInternationalOptions.as_dict` (models.py:218-221): the base
dict with `"customsItems"` overwritten by the list of customs-item dicts. -/
def intl_as_dict (x : ShipStationInternationalOptions) : List (String × PyValue) :=
  assocSet (as_dict_base (intlFields x)) "customsItems"
    (.listL (x.customs_items.map (fun ci => .dictL (customs_item_as_dict ci))))

/-! ## Orders (`ShipStationOrder`, models.py:338-522) -/

/-- Modelled from the spec: the allowed order-status enumeration lives in
`shipstation/constants.py`, which is not among the sources. The spec fixes it
as "a fixed enumerated set" of named order statuses (§3, §4.3) and its
`fetch_orders` example uses the status `shipped`; the set is rendered here as
the standard ShipStation status names. -/
def ORDER_STATUS_VALUES : List String :=
  ["awaiting_payment", "awaiting_shipment", "shipped", "on_hold", "cancelled"]

/-- `ShipStationOrder`: one field per `__slots__` entry (models.py:344-389). -/
structure ShipStationOrder where
  advanced_options : PyValue
  amount_paid : PyValue
  batch_number : PyValue
  bill_to : Option ShipStationAddress
  carrier_code : PyValue
  confirmation : PyValue
  create_date : PyValue
  customer_email : PyValue
  customer_notes : PyValue
  customer_username : PyValue
  dimensions : Option ShipStationContainer
  form_data : PyValue
  gift : PyValue
  insurance_cost : PyValue
  insurance_options : PyValue
  internal_notes : PyValue
  international_options : Option ShipStationInternationalOptions
  is_return_label : PyValue
  items : List ShipStationItem
  label_data : PyValue
  marketplace_notified : PyValue
  notify_error_message : PyValue
  order_date : PyValue
  order_id : PyValue
  order_key : PyValue
  order_number : PyValue
  order_status : Option String
  package_code : PyValue
  payment_date : PyValue
  payment_method : PyValue
  service_code : PyValue
  ship_date : PyValue
  ship_to : Option ShipStationAddress
  shipment_cost : PyValue
  shipment_id : PyValue
  shipment_items : PyValue
  shipping_amount : PyValue
  tax_amount : PyValue
  tracking_number : PyValue
  user_id : PyValue
  void_date : PyValue
  voided : PyValue
  warehouse_id : PyValue
  weight : PyValue
  deriving DecidableEq

/-- `ShipStationOrder.__init__(order_key, order_number)` (models.py:391-440);
`now` stands for `datetime.datetime.now().isoformat()`. -/
def mkOrder (order_key order_number : PyValue) (now : String) : ShipStationOrder :=
  { order_number := order_number, order_date := .str now,
    order_status := Option.none, bill_to := Option.none, ship_to := Option.none,
    order_key := order_key, payment_date := .none, customer_username := .none,
    customer_email := .none, items := [], amount_paid := .decimal 0,
    tax_amount := .decimal 0, shipping_amount := .decimal 0,
    customer_notes := .none, internal_notes := .none, gift := .none,
    payment_method := .none, carrier_code := .none, service_code := .none,
    package_code := .none, confirmation := .none, ship_date := .none,
    dimensions := Option.none, insurance_options := .none,
    international_options := Option.none, advanced_options := .none,
    tracking_number := .none, voided := .none, void_date := .none,
    order_id := .none, marketplace_notified := .none, warehouse_id := .none,
    user_id := .none, label_data := .none, batch_number := .none,
    insurance_cost := .none, form_data := .none, notify_error_message := .none,
    is_return_label := .none, shipment_id := .none, shipment_cost := .none,
    weight := .none, create_date := .none, shipment_items := .none }

/-- `ShipStationOrder.set_status` (models.py:442-448): a falsy status clears
`order_status` to `None`; a truthy status outside `ORDER_STATUS_VALUES`
raises before any assignment; otherwise the status is stored. -/
def set_status (o : ShipStationOrder) (status : Option String) :
    Except PyError ShipStationOrder :=
  if pyFalsyStr status then
    .ok { o with order_status := Option.none }
  else if (status.getD "") ∉ ORDER_STATUS_VALUES then
    .error (.attributeError "Invalid status value")
  else
    .ok { o with order_status := status }

/-- `ShipStationOrder.add_item` (models.py:490-494): appends unconditionally. -/
def add_item (o : ShipStationOrder) (item : ShipStationItem) : ShipStationOrder :=
  { o with items := o.items ++ [item] }

/-- `item.weight.value * item.quantity` for one item of the `get_weight`
comprehension: raises when `weight` is `None` (no `.value`) or when either
operand is `None`. -/
def item_weight_contribution (it : ShipStationItem) : Except PyError ℚ :=
  match it.weight with
  | Option.none => .error (.attributeError "NoneType object has no attribute value")
  | some w =>
    match w.value, it.quantity with
    | some v, some q => .ok (v * q)
    | _, _ => .error (.typeError "unsupported operand types for *")

/-- The floor of a rational, computed by floor division of numerator by
denominator. -/
def ratFloor (q : ℚ) : ℤ := Int.fdiv q.num q.den

/-- Round-half-to-even to an integer, the rounding of Python's `round`. -/
def roundHalfEven (q : ℚ) : ℤ :=
  let f := ratFloor q
  if q - f < 1/2 then f
  else if 1/2 < q - f then f + 1
  else if f % 2 = 0 then f else f + 1

/-- Python `round(x, 2)` on the exact numeric tower of this model. -/
def pyRound2 (q : ℚ) : ℚ := (roundHalfEven (q * 100) : ℚ) / 100

/-- The result dict `dict(units="ounces", value=round(weight, 2))`. -/
def weight_result (q : ℚ) : List (String × PyValue) :=
  [("units", .str "ounces"), ("value", numVal (pyRound2 q))]

/-- `ShipStationOrder.get_weight` (models.py:481-488): sums
`item.weight.value * item.quantity` over the items, adds
`dimensions.weight.value` when both `dimensions` and its `weight` are set,
and returns `{"units": "ounces", "value": round(weight, 2)}`. -/
def get_weight (o : ShipStationOrder) : Except PyError (List (String × PyValue)) :=
  match exceptMap item_weight_contribution o.items with
  | .error e => .error e
  | .ok contribs =>
    let weight := contribs.sum
    match o.dimensions with
    | some dims =>
      match dims.weight with
      | some w =>
        match w.value with
        | some v => .ok (weight_result (weight + v))
        | Option.none => .error (.typeError "unsupported operand types for +")
      | Option.none => .ok (weight_result weight)
    | Option.none => .ok (weight_result weight)

/-- Raw attributes of an order, in `__slots__` order (the iteration order of
the `__slots__` branch of the base `as_dict`). -/
def orderFields (o : ShipStationOrder) : List (String × PyValue) :=
  [("advanced_options", o.advanced_options),
   ("amount_paid", o.amount_paid),
   ("batch_number", o.batch_number),
   ("bill_to", match o.bill_to with
     | some a => .objL "ShipStationAddress" (addressFields a)
     | Option.none => .none),
   ("carrier_code", o.carrier_code),
   ("confirmation", o.confirmation),
   ("create_date", o.create_date),
   ("customer_email", o.customer_email),
   ("customer_notes", o.customer_notes),
   ("customer_username", o.customer_username),
   ("dimensions", match o.dimensions with
     | some c => .objL "ShipStationContainer" (containerFields c)
     | Option.none => .none),
   ("form_data", o.form_data),
   ("gift", o.gift),
   ("insurance_cost", o.insurance_cost),
   ("insurance_options", o.insurance_options),
   ("internal_notes", o.internal_notes),
   ("international_options", match o.international_options with
     | some x => .objL "ShipStationInternationalOptions" (intlFields x)
     | Option.none => .none),
   ("is_return_label", o.is_return_label),
   ("items", .listL (o.items.map (fun it => .objL "ShipStationItem" (itemFields it)))),
   ("label_data", o.label_data),
   ("marketplace_notified", o.marketplace_notified),
   ("notify_error_message", o.notify_error_message),
   ("order_date", o.order_date),
   ("order_id", o.order_id),
   ("order_key", o.order_key),
   ("order_number", o.order_number),
   ("order_status", optStrVal o.order_status),
   ("package_code", o.package_code),
   ("payment_date", o.payment_date),
   ("payment_method", o.payment_method),
   ("service_code", o.service_code),
   ("ship_date", o.ship_date),
   ("ship_to", match o.ship_to with
     | some a => .objL "ShipStationAddress" (addressFields a)
     | Option.none => .none),
   ("shipment_cost", o.shipment_cost),
   ("shipment_id", o.shipment_id),
   ("shipment_items", o.shipment_items),
   ("shipping_amount", o.shipping_amount),
   ("tax_amount", o.tax_amount),
   ("tracking_number", o.tracking_number),
   ("user_id", o.user_id),
   ("void_date", o.void_date),
   ("voided", o.voided),
   ("warehouse_id", o.warehouse_id),
   ("weight", o.weight)]

/-- `ShipStationOrder.as_dict` (models.py:511-519): the base dict with the
`items`, `dimensions`, `billTo`, `shipTo`, `weight` and
`internationalOptions` keys overwritten by the nested dict forms, in source
order. Errors from the item dicts, the container dict or `get_weight`
propagate. -/
def order_as_dict (o : ShipStationOrder) : Except PyError (List (String × PyValue)) :=
  match exceptMap item_as_dict o.items with
  | .error e => .error e
  | .ok itemDicts =>
  match ((match o.dimensions with
    | some c =>
      (match container_as_dict c with
        | .error e => .error e
        | .ok d => .ok (PyValue.dictL d))
    | Option.none => .ok PyValue.none) : Except PyError PyValue) with
  | .error e => .error e
  | .ok dimsVal =>
  match get_weight o with
  | .error e => .error e
  | .ok w =>
  let d := as_dict_base (orderFields o)
  let d := assocSet d "items" (.listL (itemDicts.map PyValue.dictL))
  let d := assocSet d "dimensions" dimsVal
  let d := assocSet d "billTo" (match o.bill_to with
    | some a => .dictL (address_as_dict a)
    | Option.none => .none)
  let d := assocSet d "shipTo" (match o.ship_to with
    | some a => .dictL (address_as_dict a)
    | Option.none => .none)
  let d := assocSet d "weight" (.dictL w)
  let d := assocSet d "internationalOptions" (match o.international_options with
    | some x => .dictL (intl_as_dict x)
    | Option.none => .none)
  .ok d

/-- `ShipStationOrder.json` (models.py:521-522): `json.dumps(self.as_dict())`
— no boolean/numeric coercion pass is applied. -/
def order_json (o : ShipStationOrder) : Except PyError PyValue :=
  match order_as_dict o with
  | .error e => .error e
  | .ok d => json_dumps (.dictL d)

/-! ## Inbound conversion (`from_json` / `object_list`, models.py:77-104) -/

/-- The core of `ShipStationBase.from_json` on an already-decoded dict:
`setattr(self, to_snake_case(key), value)` for each key, in order, starting
from the instance's attribute dict `init`. -/
def from_json_dict (init : List (String × PyValue)) (src : List (String × PyValue)) :
    List (String × PyValue) :=
  src.foldl (fun st kv => assocSet st (to_snake_case kv.1) kv.2) init

/-- `ShipStationBase.from_json` applied to one element of `object_list`'s
iteration: a dict is consumed field-wise; a string would be fed to
`json.loads` (never exercised by the claims, modelled as failing); anything
else has no `.items()` and raises. -/
def from_json_value (init : List (String × PyValue)) (v : PyValue) :
    Except PyError (List (String × PyValue)) :=
  match v with
  | .dict d => .ok (from_json_dict init d.toList)
  | .str _ => .error (.typeError "json.loads on a bare string is outside this model")
  | _ => .error (.attributeError "object has no attribute items")

/-- The argument of `object_list`: either a plain already-decoded value or a
`requests.Response` whose `.json()` gives `body`. -/
inductive ObjectListArg where
  | val (v : PyValue)
  | response (body : PyValue)

/-- `ShipStationBase.object_list(r, object_type)` (models.py:99-104), with
the entity type fixed to the generic base behaviour (`object_type()` makes an
empty instance, `from_json` fills it). A plain list is mapped elementwise; a
plain dict is NOT handled — the source then evaluates `r.json()` on it, and a
dict has no `.json` attribute; a response body that is a dict is wrapped as a
one-element list, a response body that is a list is mapped elementwise. -/
def object_list (r : ObjectListArg) :
    Except PyError (List (List (String × PyValue))) :=
  match r with
  | .val (.list xs) => exceptMap (from_json_value []) xs.toList
  | .val (.dict _) => .error (.attributeError "dict object has no attribute json")
  | .val _ => .error (.attributeError "object has no attribute json")
  | .response (.dict d) => .ok [from_json_dict [] d.toList]
  | .response (.list xs) => exceptMap (from_json_value []) xs.toList
  | .response _ => .error (.typeError "response body is not a JSON object or array")

/-! ## API facade (`api.py` — synchronous, `aio.py` — asynchronous)

A facade method that reaches the transport is modelled by the `Request` it
would send; a raised validation error is an `Except.error`, produced before
any `Request` value exists, which renders "raised synchronously before any
network call". -/

/-- The request a facade method hands to the shared HTTP primitive. -/
structure Request where
  method : String
  endpoint : String
  params : Option (List (String × PyValue))
  deriving DecidableEq

/-- Modelled from the spec: the recognized order-filter parameter keys
(`ORDER_LIST_PARAMETERS`) live in `shipstation/constants.py`, which is not
among the sources; the spec fixes a "recognized order-filter set" and the
source docstring's example filters by `order_status` and `page`. -/
def ORDER_LIST_PARAMETERS : List String :=
  ["customer_name", "item_keyword", "create_date_start", "create_date_end",
   "modify_date_start", "modify_date_end", "order_date_start", "order_date_end",
   "order_number", "order_status", "payment_date_start", "payment_date_end",
   "store_id", "sort_by", "sort_dir", "page", "page_size"]

/-- `ShipStation.fetch_orders` of the synchronous facade (api.py:101-129):
requires `parameters` to be a dict (the embedding's type), raises on any key
outside `ORDER_LIST_PARAMETERS` (the set difference of the docstring's
"invalid key" check), and otherwise issues a GET to `/orders/list` with the
camelCased parameters. -/
def fetch_orders_sync (parameters : List (String × PyValue)) :
    Except PyError Request :=
  let invalid_keys := (parameters.map Prod.fst).filter
    (fun k => k ∉ ORDER_LIST_PARAMETERS)
  if invalid_keys ≠ [] then
    .error (.attributeError "Invalid order list parameters")
  else
    .ok { method := "GET", endpoint := "/orders/list",
          params := some (parameters.map (fun kv => (to_camel_case kv.1, kv.2))) }

/-- `ShipStation.fetch_orders` of the asynchronous facade (aio.py:100-128) —
textually the same validation and request shaping as the synchronous one. -/
def fetch_orders_aio (parameters : List (String × PyValue)) :
    Except PyError Request :=
  let invalid_keys := (parameters.map Prod.fst).filter
    (fun k => k ∉ ORDER_LIST_PARAMETERS)
  if invalid_keys ≠ [] then
    .error (.attributeError "Invalid order list parameters")
  else
    .ok { method := "GET", endpoint := "/orders/list",
          params := some (parameters.map (fun kv => (to_camel_case kv.1, kv.2))) }

/-- Python `str(v)` where the facade builds URL paths. -/
def pyStrOf : PyValue → String
  | .str s => s
  | .int n => toString n
  | .bool b => if b then "True" else "False"
  | .none => "None"
  | .decimal q => toString q
  | _ => "object"

/-- `ShipStation.get_customer` of the synchronous facade (api.py:149-152):
a GET to the literal path `/customers/customerId` with the id passed as the
query parameter `carrierCode`. -/
def get_customer_sync (customer_id : PyValue) : Request :=
  { method := "GET", endpoint := "/customers/customerId",
    params := some [("carrierCode", customer_id)] }

/-- `ShipStation.get_customer` of the asynchronous facade (aio.py:151-154):
a GET to `/customers/` + `str(customer_id)` with no query parameters. -/
def get_customer_aio (customer_id : PyValue) : Request :=
  { method := "GET", endpoint := "/customers/" ++ pyStrOf customer_id,
    params := Option.none }

/-! ## The client's order accumulator (api.py:30-43, aio.py:85-98) -/

/-- `isinstance(order, ShipStationOrder)` on a runtime value. -/
def is_ShipStationOrder : PyValue → Bool
  | .obj "ShipStationOrder" _ => true
  | _ => false

/-- One facade operation per public method of the synchronous client
(api.py); the asynchronous client exposes the same operations. Only the
arguments relevant to the order accumulator are carried. -/
inductive FacadeOp where
  | addOrder (arg : PyValue)
  | getOrders
  | submitOrders
  | fetchOrders (parameters : List (String × PyValue))
  | listCarriers
  | getCarrier
  | listPackages
  | listServices
  | getCustomer
  | listCustomers
  | listFulfillments
  | listShipments
  | createShipmentLabel
  | getRates
  | voidLabel
  | listStores
  | getStore
  | updateStore
  | listMarketplaces
  | deactivateStore
  | reactivateStore
  | listUsers
  | getWarehouse
  | listWarehouses
  | deleteWarehouse
  | updateWarehouse
  | listWebhooks
  | unsubscribeToWebhook
  | subscribeToWebhook

/-- `ShipStation.__init__` leaves `self.orders = []` (api.py:30, aio.py:85). -/
def clientInitOrders : List PyValue := []

/-- `require_type(order, ShipStationOrder)` (models.py:61-67) as called by
`add_order`: the guard returns immediately when the argument is `None`
(optional-field semantics), accepts a `ShipStationOrder` instance, and raises
on anything else. -/
def require_type_order : PyValue → Except PyError Unit
  | .none => .ok ()
  | v =>
    if is_ShipStationOrder v then .ok ()
    else .error (.attributeError "must be of type ShipStationOrder")

/-- The effect of each facade operation on `self.orders`. `add_order`
(api.py:34-36, aio.py:89-91) runs the None-permissive `require_type` guard
and then appends its argument — so `None` is appended without an error; no
other method of either facade assigns to or appends to `self.orders`
(`get_orders` and `submit_orders` only read it), so every other operation
leaves it unchanged. -/
def ordersAfter : FacadeOp → List PyValue → Except PyError (List PyValue)
  | .addOrder v, orders =>
    match require_type_order v with
    | .error e => .error e
    | .ok _ => .ok (orders ++ [v])
  | _, orders => .ok orders

/-- The claimed invariant: every element of the accumulator is a
`ShipStationOrder` instance. -/
def ordersInvariant (orders : List PyValue) : Prop :=
  ∀ v ∈ orders, is_ShipStationOrder v = true

/-- The invariant the code actually maintains: every element of the
accumulator is a `ShipStationOrder` instance or `None`. -/
def ordersInvariantOrNone (orders : List PyValue) : Prop :=
  ∀ v ∈ orders, is_ShipStationOrder v = true ∨ v = PyValue.none

/-! ## Helper lemmas -/

theorem exceptMap_ok {α β : Type} (f : α → Except PyError β) (g : α → β)
    (xs : List α) (h : ∀ a ∈ xs, f a = .ok (g a)) :
    exceptMap f xs = .ok (xs.map g) := by
  induction xs with
  | nil => rfl
  | cons a as ih =>
    rw [exceptMap, h a (by simp), ih (fun x hx => h x (by simp [hx]))]
    simp

/-! ## Lemmas about the naming converter -/

theorem lowerCode_of_not_upper {n : Nat} (h : isUpperCode n = false) :
    lowerCode n = n := by
  simp [lowerCode, h]

theorem not_upper_of_lower {n : Nat} (h : isLowerCode n = true) :
    isUpperCode n = false := by
  simp only [isLowerCode, Bool.and_eq_true, decide_eq_true_eq] at h
  simp only [isUpperCode, Bool.and_eq_false_iff, decide_eq_false_iff_not]
  omega

theorem isUpper_upperCode {n : Nat} (h : isLowerCode n = true) :
    isUpperCode (upperCode n) = true := by
  rw [upperCode, if_pos h]
  simp only [isLowerCode, Bool.and_eq_true, decide_eq_true_eq] at h
  simp only [isUpperCode, Bool.and_eq_true, decide_eq_true_eq]
  omega

theorem lowerCode_upperCode {n : Nat} (h : isLowerCode n = true) :
    lowerCode (upperCode n) = n := by
  rw [upperCode, if_pos h]
  simp only [isLowerCode, Bool.and_eq_true, decide_eq_true_eq] at h
  have hu : isUpperCode (n - 32) = true := by
    simp only [isUpperCode, Bool.and_eq_true, decide_eq_true_eq]
    omega
  rw [lowerCode, if_pos hu]
  omega

theorem map_lowerCode_of_no_upper {l : List Nat}
    (h : ∀ c ∈ l, isUpperCode c = false) : l.map lowerCode = l := by
  induction l with
  | nil => rfl
  | cons a t ih =>
    simp only [List.map_cons, List.cons.injEq]
    exact ⟨lowerCode_of_not_upper (h a (by simp)),
           ih (fun c hc => h c (by simp [hc]))⟩

theorem uscore_not_mem_of_lower {w : List Nat}
    (h : ∀ c ∈ w, isLowerCode c = true) : USCORE ∉ w := by
  intro hmem
  have := h USCORE hmem
  simp [isLowerCode, USCORE] at this

theorem splitUnderscore_ne_nil (l : List Nat) : splitUnderscore l ≠ [] := by
  cases l with
  | nil => simp [splitUnderscore]
  | cons c rest =>
    rw [splitUnderscore]
    rcases h : splitUnderscore rest with _ | ⟨s, ss⟩
    · simp
    · by_cases hc : c = USCORE <;> simp [hc]

theorem splitUnderscore_no_sep {w : List Nat} (h : USCORE ∉ w) :
    splitUnderscore w = [w] := by
  induction w with
  | nil => rfl
  | cons c rest ih =>
    have hc : c ≠ USCORE := by intro hh; exact h (by simp [hh])
    rw [splitUnderscore, ih (fun hh => h (by simp [hh]))]
    simp [hc]

theorem splitUnderscore_sep {w : List Nat} (t : List Nat) (h : USCORE ∉ w) :
    splitUnderscore (w ++ USCORE :: t) = w :: splitUnderscore t := by
  induction w with
  | nil =>
    rw [List.nil_append, splitUnderscore]
    rcases hs : splitUnderscore t with _ | ⟨s, ss⟩
    · exact absurd hs (splitUnderscore_ne_nil t)
    · simp
  | cons c rest ih =>
    have hc : c ≠ USCORE := by intro hh; exact h (by simp [hh])
    rw [List.cons_append, splitUnderscore, ih (fun hh => h (by simp [hh]))]
    simp [hc]

/-- The snake_case source form: segments joined by single underscores. -/
def joinUnderscore : List (List Nat) → List Nat
  | [] => []
  | [w] => w
  | w :: ws => w ++ USCORE :: joinUnderscore ws

/-- The camelCase form of one non-first segment: first letter uppercased,
rest unchanged (what `str.title` does to an all-lowercase token). -/
def capSeg : List Nat → List Nat
  | [] => []
  | c :: cs => upperCode c :: cs

theorem joinUnderscore_cons_cons (f v : List Nat) (ws : List (List Nat)) :
    joinUnderscore (f :: v :: ws) = f ++ USCORE :: joinUnderscore (v :: ws) := rfl

theorem joinUnderscore_cons (f : List Nat) (rest : List (List Nat)) :
    joinUnderscore (f :: rest)
      = f ++ (rest.map (fun s => USCORE :: s)).flatten := by
  induction rest generalizing f with
  | nil => simp [joinUnderscore]
  | cons v ws ih =>
    rw [joinUnderscore_cons_cons]
    simp only [List.map_cons, List.flatten_cons]
    rw [ih v]
    simp

theorem mem_joinUnderscore {segs : List (List Nat)} {c : Nat}
    (h : c ∈ joinUnderscore segs) : c = USCORE ∨ ∃ w ∈ segs, c ∈ w := by
  induction segs with
  | nil => simp [joinUnderscore] at h
  | cons f rest ih =>
    rw [joinUnderscore_cons] at h
    rcases List.mem_append.mp h with hf | hflat
    · exact Or.inr ⟨f, by simp, hf⟩
    · rw [List.mem_flatten] at hflat
      obtain ⟨l, hl, hcl⟩ := hflat
      rw [List.mem_map] at hl
      obtain ⟨s, hs, rfl⟩ := hl
      rcases List.mem_cons.mp hcl with rfl | hcs
      · exact Or.inl rfl
      · exact Or.inr ⟨s, by simp [hs], hcs⟩

theorem splitUnderscore_join {segs : List (List Nat)} (hne : segs ≠ [])
    (h : ∀ w ∈ segs, USCORE ∉ w) :
    splitUnderscore (joinUnderscore segs) = segs := by
  induction segs with
  | nil => exact absurd rfl hne
  | cons f rest ih =>
    cases rest with
    | nil => exact splitUnderscore_no_sep (h f (by simp))
    | cons v ws =>
      rw [joinUnderscore_cons_cons, splitUnderscore_sep _ (h f (by simp)),
          ih (by simp) (fun w hw => h w (by simp [hw]))]

theorem isAlpha_of_lower {n : Nat} (h : isLowerCode n = true) :
    isAlphaCode n = true := by
  simp [isAlphaCode, h]

theorem pyTitleGo_of_lower {l : List Nat}
    (h : ∀ c ∈ l, isLowerCode c = true) : pyTitleGo l true = l := by
  induction l with
  | nil => rfl
  | cons c cs ih =>
    have hc := h c (by simp)
    rw [pyTitleGo, isAlpha_of_lower hc]
    simp only [if_true]
    rw [lowerCode_of_not_upper (not_upper_of_lower hc),
        ih (fun x hx => h x (by simp [hx]))]

theorem pyTitle_of_lower {c : Nat} {cs : List Nat} (hc : isLowerCode c = true)
    (hcs : ∀ x ∈ cs, isLowerCode x = true) :
    pyTitle (c :: cs) = upperCode c :: cs := by
  rw [pyTitle, pyTitleGo, isAlpha_of_lower hc]
  simp only [if_true, Bool.false_eq_true, if_false]
  rw [pyTitleGo_of_lower hcs]

theorem toCamelCodes_join (f : List Nat) (rest : List (List Nat))
    (hfl : ∀ c ∈ f, isLowerCode c = true)
    (hrest : ∀ w ∈ rest, w ≠ [] ∧ ∀ c ∈ w, isLowerCode c = true) :
    toCamelCodes (joinUnderscore (f :: rest)) = f ++ (rest.map capSeg).flatten := by
  have hlow : (joinUnderscore (f :: rest)).map lowerCode = joinUnderscore (f :: rest) := by
    apply map_lowerCode_of_no_upper
    intro c hc
    rcases mem_joinUnderscore hc with rfl | ⟨w, hw, hcw⟩
    · simp [isUpperCode, USCORE]
    · rcases List.mem_cons.mp hw with rfl | hw'
      · exact not_upper_of_lower (hfl c hcw)
      · exact not_upper_of_lower ((hrest w hw').2 c hcw)
  have hsep : ∀ w ∈ f :: rest, USCORE ∉ w := by
    intro w hw
    rcases List.mem_cons.mp hw with rfl | hw'
    · exact uscore_not_mem_of_lower hfl
    · exact uscore_not_mem_of_lower (hrest w hw').2
  rw [toCamelCodes, hlow, splitUnderscore_join (by simp) hsep]
  show f ++ (rest.map pyTitle).flatten = f ++ (rest.map capSeg).flatten
  have hmap : rest.map pyTitle = rest.map capSeg := by
    apply List.map_congr_left
    intro w hw
    obtain ⟨hwne, hwl⟩ := hrest w hw
    obtain ⟨c, cs, rfl⟩ := List.exists_cons_of_ne_nil hwne
    rw [capSeg, pyTitle_of_lower (hwl c (by simp)) (fun x hx => hwl x (by simp [hx]))]
  rw [hmap]

theorem snakeGo_all_lower {l : List Nat} (e : Bool)
    (h : ∀ c ∈ l, isUpperCode c = false) : snakeGo l e = l := by
  induction l generalizing e with
  | nil => rfl
  | cons c t ih =>
    rw [snakeGo, h c (by simp)]
    simp only [Bool.and_false, Bool.false_eq_true, if_false]
    rw [ih _ (fun x hx => h x (by simp [hx]))]

theorem snakeGo_lower_then_upper {w : List Nat}
    (hw : ∀ c ∈ w, isLowerCode c = true) {e : Bool} (he : w = [] → e = true)
    {C : Nat} (hC : isUpperCode C = true) (t : List Nat) :
    snakeGo (w ++ C :: t) e = w ++ USCORE :: C :: snakeGo t false := by
  induction w generalizing e with
  | nil =>
    rw [he rfl, List.nil_append, snakeGo, hC]
    simp
  | cons a w' ih =>
    have ha := hw a (by simp)
    rw [List.cons_append, snakeGo, not_upper_of_lower ha]
    simp only [Bool.and_false, Bool.false_eq_true, if_false, ha, Bool.true_or]
    rw [ih (fun x hx => hw x (by simp [hx])) (fun _ => rfl)]
    rfl

theorem snakeGo_camel (rest : List (List Nat))
    (hrest : ∀ w ∈ rest, w ≠ [] ∧ ∀ c ∈ w, isLowerCode c = true)
    (hint : ∀ w ∈ rest.dropLast, 2 ≤ w.length) :
    ∀ (w : List Nat) (e : Bool), (∀ c ∈ w, isLowerCode c = true) →
      (rest ≠ [] → w = [] → e = true) →
      snakeGo (w ++ (rest.map capSeg).flatten) e
        = w ++ (rest.map (fun s => USCORE :: capSeg s)).flatten := by
  induction rest with
  | nil =>
    intro w e hw _
    simp only [List.map_nil, List.flatten_nil, List.append_nil]
    exact snakeGo_all_lower e (fun c hc => not_upper_of_lower (hw c hc))
  | cons v rest' ih =>
    intro w e hw he
    obtain ⟨hvne, hvl⟩ := hrest v (by simp)
    obtain ⟨c, cs, rfl⟩ := List.exists_cons_of_ne_nil hvne
    have hC := isUpper_upperCode (hvl c (by simp))
    simp only [List.map_cons, List.flatten_cons]
    rw [show capSeg (c :: cs) = upperCode c :: cs from rfl]
    simp only [List.cons_append]
    rw [snakeGo_lower_then_upper hw (he (by simp)) hC]
    rw [ih (fun u hu => hrest u (by simp [hu]))
          (fun u hu => hint u (by
            rcases rest' with _ | ⟨v', ws'⟩
            · simp at hu
            · simpa using Or.inr hu))
          cs false (fun x hx => hvl x (by simp [hx]))
          (fun hrne hcs => by
            have hlen := hint (c :: cs) (by
              rcases rest' with _ | ⟨v', ws'⟩
              · exact absurd rfl hrne
              · simp)
            rw [hcs] at hlen
            simp at hlen)]

theorem map_lowerCode_restore (rest : List (List Nat))
    (hrest : ∀ w ∈ rest, w ≠ [] ∧ ∀ c ∈ w, isLowerCode c = true) :
    ((rest.map (fun s => USCORE :: capSeg s)).flatten).map lowerCode
      = (rest.map (fun s => USCORE :: s)).flatten := by
  induction rest with
  | nil => rfl
  | cons v rest' ih =>
    obtain ⟨hvne, hvl⟩ := hrest v (by simp)
    obtain ⟨c, cs, rfl⟩ := List.exists_cons_of_ne_nil hvne
    simp only [List.map_cons, List.flatten_cons]
    rw [show capSeg (c :: cs) = upperCode c :: cs from rfl]
    simp only [List.cons_append, List.map_append, List.map_cons]
    rw [ih (fun u hu => hrest u (by simp [hu]))]
    rw [show lowerCode USCORE = USCORE from rfl,
        lowerCode_upperCode (hvl c (by simp)),
        map_lowerCode_of_no_upper
          (fun x hx => not_upper_of_lower (hvl x (by simp [hx])))]

/-- The camel/snake round trip on a segmented snake_case name: shared core of
the C4 theorems. -/
theorem toSnake_toCamel_segments (f : List Nat) (rest : List (List Nat))
    (hf : f ≠ []) (hfl : ∀ c ∈ f, isLowerCode c = true)
    (hrest : ∀ w ∈ rest, w ≠ [] ∧ ∀ c ∈ w, isLowerCode c = true)
    (hint : ∀ w ∈ rest.dropLast, 2 ≤ w.length) :
    toSnakeCodes (toCamelCodes (joinUnderscore (f :: rest)))
      = joinUnderscore (f :: rest) := by
  rw [toCamelCodes_join f rest hfl hrest]
  obtain ⟨a, f', rfl⟩ := List.exists_cons_of_ne_nil hf
  have ha := hfl a (by simp)
  rw [toSnakeCodes]
  rw [show (a :: f') ++ (rest.map capSeg).flatten
        = a :: (f' ++ (rest.map capSeg).flatten) by simp]
  rw [snakeSub, ha]
  simp only [Bool.true_or]
  rw [snakeGo_camel rest hrest hint f' true
        (fun x hx => hfl x (by simp [hx])) (fun _ _ => rfl)]
  simp only [List.map_cons, List.map_append]
  rw [lowerCode_of_not_upper (not_upper_of_lower ha),
      map_lowerCode_of_no_upper
        (fun x hx => not_upper_of_lower (hfl x (by simp [hx]))),
      map_lowerCode_restore rest hrest,
      joinUnderscore_cons]
  simp

/-! ## Claim C4 — camel/snake round trip -/

/-- Claim C4, counterexample: `"a_b_c"` is a snake_case name made of
alphabetic lowercase segments joined by single underscores, yet the round
trip gives `"a_bc"`: `to_camel_case` produces `"aBC"` and the snake regex,
whose matches cannot overlap, splits only before the first consecutive
capital. -/
theorem roundtrip_counterexample_c4 :
    (joinUnderscore [codes "a", codes "b", codes "c"] = codes "a_b_c") ∧
    (∀ w ∈ [codes "a", codes "b", codes "c"],
      w ≠ [] ∧ ∀ c ∈ w, isLowerCode c = true) ∧
    toSnakeCodes (toCamelCodes (codes "a_b_c")) = codes "a_bc" ∧
    codes "a_bc" ≠ codes "a_b_c" := by
  refine ⟨by decide, by decide, by decide, by decide⟩

/-- Claim C4 (amended): for every snake_case name made of nonempty alphabetic
lowercase segments joined by single underscores, in which every interior
segment (neither first nor last) has at least two characters — so that the
camel form has no consecutive capitals — converting to the wire name and back
is the identity: `to_snake_case (to_camel_case s) = s`. -/
theorem roundtrip_camel_snake_c4 (segs : List (List Nat)) (hne : segs ≠ [])
    (hseg : ∀ w ∈ segs, w ≠ [] ∧ ∀ c ∈ w, isLowerCode c = true)
    (hint : ∀ w ∈ segs.tail.dropLast, 2 ≤ w.length) :
    toSnakeCodes (toCamelCodes (joinUnderscore segs)) = joinUnderscore segs := by
  obtain ⟨f, rest, rfl⟩ := List.exists_cons_of_ne_nil hne
  exact toSnake_toCamel_segments f rest (hseg f (by simp)).1 (hseg f (by simp)).2
    (fun w hw => hseg w (by simp [hw])) hint

/-- Claim C4, witness: the round trip fixes `"order_number"`. -/
theorem roundtrip_camel_snake_c4_witness :
    toSnakeCodes (toCamelCodes (codes "order_number")) = codes "order_number" := by
  have hj : joinUnderscore [codes "order", codes "number"] = codes "order_number" := by
    decide
  have h := roundtrip_camel_snake_c4 [codes "order", codes "number"]
    (by decide) (by decide) (by decide)
  rw [hj] at h
  exact h

/-! ## Claim C2 — `_validate_parameters` ignores the allowed-key set -/

/-- Claim C2, the code evaluated at the failing input: `{"foo": 1}` against
the empty allowed-key set is returned camelCased with no error, because
`_validate_parameters` never consults `valid_parameters`; the claimed
InvalidParameterKey failure does not happen. -/
theorem validate_parameters_ignores_allowed_keys_c2 :
    ("foo" ∉ ([] : List String)) ∧
    validate_parameters [("foo", .int 1)] [] = .ok [("foo", .int 1)] := by
  refine ⟨by simp, by decide⟩

/-! ## Claim C3 — `object_list` on decoded input -/

/-- Claim C3, counterexample: `object_list` applied to the already-decoded
single wire object `{"a": 1}` does not return a one-element list — the source
falls through to `r.json()`, and a plain dict has no `json` attribute, so the
call raises `AttributeError`. -/
theorem object_list_counterexample_c3 :
    object_list (.val (.dict (.ofList [("a", .int 1)])))
      = .error (.attributeError "dict object has no attribute json") := by
  decide

theorem pyValueList_toList_ofList (xs : List PyValue) :
    (PyValueList.ofList xs).toList = xs := by
  induction xs with
  | nil => rfl
  | cons v vs ih => rw [PyValueList.ofList, PyValueList.toList, ih]

theorem pyFieldList_toList_ofList (kvs : List (String × PyValue)) :
    (PyFieldList.ofList kvs).toList = kvs := by
  induction kvs with
  | nil => rfl
  | cons kv kvs ih => rw [PyFieldList.ofList, PyFieldList.toList, ih]

/-- Claim C3 (amended): `object_list` maps `from_json` over an already-decoded
list of wire objects, in input order and preserving length; a single decoded
object is accepted only when it arrives as a response body (`r.json()`
returning a dict), in which case it is treated as a one-element list; a bare
decoded dict instead raises `AttributeError` (see the counterexample). -/
theorem object_list_spec_c3 :
    (∀ ds : List (List (String × PyValue)),
      object_list (.val (.listL (ds.map (fun d => PyValue.dict (.ofList d)))))
        = .ok (ds.map (from_json_dict [])) ∧
      (ds.map (from_json_dict [])).length = ds.length) ∧
    (∀ d : List (String × PyValue),
      object_list (.response (.dict (.ofList d))) = .ok [from_json_dict [] d]) := by
  constructor
  · intro ds
    constructor
    · show exceptMap (from_json_value [])
        (PyValueList.ofList (ds.map (fun d => PyValue.dict (.ofList d)))).toList
        = .ok (ds.map (from_json_dict []))
      rw [pyValueList_toList_ofList]
      have h := exceptMap_ok (from_json_value [])
        (fun v => match v with
          | .dict fl => from_json_dict [] fl.toList
          | _ => [])
        (ds.map (fun d => PyValue.dict (.ofList d)))
        (by
          intro a ha
          rw [List.mem_map] at ha
          obtain ⟨d, _, rfl⟩ := ha
          rfl)
      rw [h, List.map_map]
      apply congrArg
      apply List.map_congr_left
      intro d _
      show from_json_dict [] (PyFieldList.ofList d).toList = from_json_dict [] d
      rw [pyFieldList_toList_ofList]
    · simp
  · intro d
    show Except.ok [from_json_dict [] (PyFieldList.ofList d).toList]
      = .ok [from_json_dict [] d]
    rw [pyFieldList_toList_ofList]

/-! ## Claim C5 — customs-item construction-time validation -/

/-- Claim C5: constructing a customs item fails whenever `description`,
`harmonized_tariff_code` or `country_of_origin` is falsy, whenever
`country_of_origin` is not exactly two characters, or whenever `value` is
present but not a `Decimal`; and construction succeeds when
`country_of_origin` is `"US"`, the other required fields are truthy and
`value` is a `Decimal`. -/
theorem customs_item_validation_c5 :
    (∀ d q v h c, (pyFalsyStr d = true ∨ pyFalsyStr h = true ∨ pyFalsyStr c = true) →
      exceptOk (customs_item_init d q v h c) = false) ∧
    (∀ d q v h (s : String), s.length ≠ 2 →
      exceptOk (customs_item_init d q v h (some s)) = false) ∧
    (∀ d q v h c, v ≠ PyValue.none → (∀ x : ℚ, v ≠ PyValue.decimal x) →
      exceptOk (customs_item_init d q v h c) = false) ∧
    (∀ d q (x : ℚ) h, pyFalsyStr d = false → pyFalsyStr h = false →
      exceptOk (customs_item_init d q (PyValue.decimal x) h (some "US")) = true) := by
  refine ⟨?_, ?_, ?_, ?_⟩
  · intro d q v h c hor
    rcases hor with h1 | h1 | h1 <;>
      cases v <;>
      simp [customs_item_init, require_attribute, require_type_decimal,
        exceptOk, h1] <;>
      split_ifs <;> simp_all [exceptOk]
  · intro d q v h s hlen
    cases v <;>
      simp [customs_item_init, require_attribute, require_type_decimal,
        exceptOk, hlen] <;>
      split_ifs <;> simp_all [exceptOk]
  · intro d q v h c hne hnd
    cases v with
    | none => exact absurd rfl hne
    | decimal x => exact absurd rfl (hnd x)
    | _ =>
      simp [customs_item_init, require_attribute, require_type_decimal,
        exceptOk]
      split_ifs <;> simp_all [exceptOk]
  · intro d q x h hd hh
    simp [customs_item_init, require_attribute, require_type_decimal,
      exceptOk, hd, hh, (by decide : pyFalsyStr (some "US") = false),
      (by decide : "US".length = 2)]

/-- Claim C5, witness: one concrete instance of each failure class and the
concrete success. -/
theorem customs_item_validation_c5_witness :
    exceptOk (customs_item_init Option.none (.int 1) (.decimal 0)
      (some "6403.99") (some "US")) = false ∧
    exceptOk (customs_item_init (some "jeans") (.int 1) (.decimal 0)
      (some "6403.99") (some "USA")) = false ∧
    exceptOk (customs_item_init (some "jeans") (.int 1) (.int 5)
      (some "6403.99") (some "US")) = false ∧
    exceptOk (customs_item_init (some "jeans") (.int 1) (.decimal 0)
      (some "6403.99") (some "US")) = true := by
  refine ⟨customs_item_validation_c5.1 _ _ _ _ _ (Or.inl (by decide)),
          customs_item_validation_c5.2.1 _ _ _ _ "USA" (by decide),
          customs_item_validation_c5.2.2.1 _ _ _ _ _ (by simp) (by simp),
          customs_item_validation_c5.2.2.2 _ _ 0 _ (by decide) (by decide)⟩

/-! ## Claim C6 — `set_status` on an out-of-set status -/

/-- An order whose status was previously set to `shipped`. -/
def c6_order : ShipStationOrder :=
  { (mkOrder .none .none "2024-01-01T00:00:00") with
    order_status := some "shipped" }

/-- Claim C6, counterexample: the empty string is a non-null status outside
the allowed order-status set, yet `set_status` does not raise on it — the
`if not status` branch treats every falsy value as "clear", so the call
returns normally and overwrites the prior `shipped` status with `None`. -/
theorem set_status_counterexample_c6 :
    ("" ∉ ORDER_STATUS_VALUES) ∧
    c6_order.order_status = some "shipped" ∧
    set_status c6_order (some "") =
      .ok { c6_order with order_status := Option.none } := by
  refine ⟨by decide, by decide, by decide⟩

/-- Claim C6 (amended): for every truthy (non-null, non-empty) status value
outside the allowed order-status set, `set_status` raises the invalid-status
error; the exception aborts the method before any assignment, so
`order_status` retains its prior value (an `Except.error` result carries no
updated order). A falsy status (`None` or `""`) instead clears the status
without raising — see the counterexample. -/
theorem set_status_spec_c6 (o : ShipStationOrder) (s : String) (hne : s ≠ "")
    (hmem : s ∉ ORDER_STATUS_VALUES) :
    set_status o (some s) = .error (.attributeError "Invalid status value") := by
  rw [set_status]
  rw [if_neg (by simp [pyFalsyStr, hne]), if_pos (by simpa using hmem)]

/-- Claim C6, witness: `set_status` raises on the out-of-set status
`"bogus"`. -/
theorem set_status_spec_c6_witness :
    set_status (mkOrder .none .none "2024-01-01T00:00:00") (some "bogus") =
      .error (.attributeError "Invalid status value") :=
  set_status_spec_c6 _ "bogus" (by decide) (by decide)

/-! ## Claim C7 — `fetch_orders` parameter validation -/

/-- Claim C7: in both facade variants, `fetch_orders` raises the
invalid-parameter error whenever the mapping contains a key outside
`ORDER_LIST_PARAMETERS` — the `Except.error` result means no `Request` is
ever built, i.e. the error precedes any network traffic — and when every key
is recognized it builds the GET request to `/orders/list` carrying the
camelCase-renamed parameters. -/
theorem fetch_orders_validation_c7 :
    (∀ ps : List (String × PyValue),
      (∃ k ∈ ps.map Prod.fst, k ∉ ORDER_LIST_PARAMETERS) →
      fetch_orders_sync ps = .error (.attributeError "Invalid order list parameters") ∧
      fetch_orders_aio ps = .error (.attributeError "Invalid order list parameters")) ∧
    (∀ ps : List (String × PyValue),
      (∀ k ∈ ps.map Prod.fst, k ∈ ORDER_LIST_PARAMETERS) →
      fetch_orders_sync ps = .ok ⟨"GET", "/orders/list",
        some (ps.map (fun kv => (to_camel_case kv.1, kv.2)))⟩ ∧
      fetch_orders_aio ps = .ok ⟨"GET", "/orders/list",
        some (ps.map (fun kv => (to_camel_case kv.1, kv.2)))⟩) := by
  constructor
  · rintro ps ⟨k, hk, hnk⟩
    have hfil : ((ps.map Prod.fst).filter
        (fun k => k ∉ ORDER_LIST_PARAMETERS)) ≠ [] := by
      intro h0
      rw [List.filter_eq_nil_iff] at h0
      exact absurd (by simpa using h0 k hk) (by simpa using hnk)
    exact ⟨by simp only [fetch_orders_sync]; rw [if_pos hfil],
           by simp only [fetch_orders_aio]; rw [if_pos hfil]⟩
  · intro ps hall
    have hfil : ((ps.map Prod.fst).filter
        (fun k => k ∉ ORDER_LIST_PARAMETERS)) = [] := by
      rw [List.filter_eq_nil_iff]
      intro k hk
      simpa using hall k hk
    have hcond : ¬(((ps.map Prod.fst).filter
        (fun k => k ∉ ORDER_LIST_PARAMETERS)) ≠ []) := fun hh => hh hfil
    exact ⟨by simp only [fetch_orders_sync]; rw [if_neg hcond],
           by simp only [fetch_orders_aio]; rw [if_neg hcond]⟩

/-- Claim C7, witness: an unrecognized key `bogus` is rejected; the
recognized keys `order_status`, `page` go through camelCased. -/
theorem fetch_orders_validation_c7_witness :
    fetch_orders_sync [("bogus", .int 1)] =
      .error (.attributeError "Invalid order list parameters") ∧
    fetch_orders_sync [("order_status", .str "shipped"), ("page", .str "2")] =
      .ok ⟨"GET", "/orders/list",
        some [("orderStatus", .str "shipped"), ("page", .str "2")]⟩ := by
  constructor
  · exact (fetch_orders_validation_c7.1 [("bogus", .int 1)]
      ⟨"bogus", by decide, by decide⟩).1
  · exact ((fetch_orders_validation_c7.2
      [("order_status", .str "shipped"), ("page", .str "2")] (by decide)).1).trans
      (by decide)

/-! ## Claim C9 — sync/async facade equivalence -/

/-- Claim C9, counterexample: the two variants do not produce identical
requests for every operation — `get_customer(7)` builds a GET to the literal
path `/customers/customerId` with query parameter `carrierCode` in the
synchronous facade, but a GET to `/customers/7` with no parameters in the
asynchronous one. -/
theorem sync_aio_counterexample_c9 :
    get_customer_sync (.str "7") ≠ get_customer_aio (.str "7") := by
  decide

/-- Claim C9 (amended): the `fetch_orders` validation and wire-shaping of the
two facade variants are identical — they raise for exactly the same inputs
and build identical requests — but the equivalence does not extend to every
operation: `get_customer` sends different endpoints and query parameters in
the two variants (see the counterexample). -/
theorem sync_aio_fetch_orders_eq_c9 :
    ∀ ps : List (String × PyValue), fetch_orders_sync ps = fetch_orders_aio ps :=
  fun _ => rfl

/-! ## Claim C10 — the order-accumulator invariant -/

theorem require_type_order_ok {v : PyValue} (h : require_type_order v = .ok ()) :
    is_ShipStationOrder v = true ∨ v = PyValue.none := by
  cases v with
  | none => exact Or.inr rfl
  | _ =>
    refine Or.inl ?_
    simp only [require_type_order] at h
    split at h
    · assumption
    · exact absurd h (by simp)

/-- Claim C10, counterexample: `require_type` returns immediately on `None`,
so `add_order(None)` raises nothing and appends `None` to the fresh client's
accumulator — `None` is not a `ShipStationOrder`, so the claimed all-orders
invariant is broken at this input. -/
theorem orders_add_none_counterexample_c10 :
    ordersAfter (.addOrder PyValue.none) clientInitOrders = .ok [PyValue.none] ∧
    is_ShipStationOrder PyValue.none = false ∧
    ¬ ordersInvariant [PyValue.none] := by
  refine ⟨rfl, rfl, fun h => ?_⟩
  have hmem := h PyValue.none (by simp)
  simp [is_ShipStationOrder] at hmem

/-- Claim C10 (amended): the accumulator starts empty; `add_order` is the
only operation that extends it, and its None-permissive `require_type` guard
raises exactly on present (non-`None`) arguments that are not
`ShipStationOrder` instances — an `Except.error` result carries no new
state, so the list is unchanged — while `add_order(None)` appends `None`
without raising. Consequently the invariant established at construction and
preserved by every facade operation is the weaker one: every element of the
accumulator is a `ShipStationOrder` or `None`. -/
theorem orders_invariant_spec_c10 :
    ordersInvariantOrNone clientInitOrders ∧
    (∀ (op : FacadeOp) (st st' : List PyValue), ordersInvariantOrNone st →
      ordersAfter op st = .ok st' → ordersInvariantOrNone st') ∧
    (∀ (v : PyValue) (st : List PyValue), v ≠ PyValue.none →
      is_ShipStationOrder v = false →
      ordersAfter (.addOrder v) st =
        .error (.attributeError "must be of type ShipStationOrder")) ∧
    (∀ st : List PyValue,
      ordersAfter (.addOrder PyValue.none) st = .ok (st ++ [PyValue.none])) := by
  refine ⟨?_, ?_, ?_, ?_⟩
  · intro v hv
    simp [clientInitOrders] at hv
  · intro op st st' hinv hok
    cases op with
    | addOrder v =>
      rw [ordersAfter] at hok
      cases hrt : require_type_order v with
      | error e =>
        rw [hrt] at hok
        exact absurd hok (by simp)
      | ok u =>
        rw [hrt] at hok
        cases hok
        intro x hx
        rcases List.mem_append.mp hx with h1 | h1
        · exact hinv x h1
        · rw [List.mem_singleton.mp h1]
          exact require_type_order_ok hrt
    | getOrders => cases hok; exact hinv
    | submitOrders => cases hok; exact hinv
    | fetchOrders ps => cases hok; exact hinv
    | listCarriers => cases hok; exact hinv
    | getCarrier => cases hok; exact hinv
    | listPackages => cases hok; exact hinv
    | listServices => cases hok; exact hinv
    | getCustomer => cases hok; exact hinv
    | listCustomers => cases hok; exact hinv
    | listFulfillments => cases hok; exact hinv
    | listShipments => cases hok; exact hinv
    | createShipmentLabel => cases hok; exact hinv
    | getRates => cases hok; exact hinv
    | voidLabel => cases hok; exact hinv
    | listStores => cases hok; exact hinv
    | getStore => cases hok; exact hinv
    | updateStore => cases hok; exact hinv
    | listMarketplaces => cases hok; exact hinv
    | deactivateStore => cases hok; exact hinv
    | reactivateStore => cases hok; exact hinv
    | listUsers => cases hok; exact hinv
    | getWarehouse => cases hok; exact hinv
    | listWarehouses => cases hok; exact hinv
    | deleteWarehouse => cases hok; exact hinv
    | updateWarehouse => cases hok; exact hinv
    | listWebhooks => cases hok; exact hinv
    | unsubscribeToWebhook => cases hok; exact hinv
    | subscribeToWebhook => cases hok; exact hinv
  · intro v st hne hv
    have hrt : require_type_order v =
        .error (.attributeError "must be of type ShipStationOrder") := by
      cases v with
      | none => exact absurd rfl hne
      | _ => simp [require_type_order, hv]
    rw [ordersAfter, hrt]
  · intro st
    rfl

/-- Claim C10, witness: appending one genuine order to the fresh client
preserves the weakened invariant, adding a non-`None` non-order raises, and
adding `None` appends it. -/
theorem orders_invariant_spec_c10_witness :
    ordersInvariantOrNone [.objL "ShipStationOrder" []] ∧
    ordersAfter (.addOrder (.str "not an order")) clientInitOrders =
      .error (.attributeError "must be of type ShipStationOrder") ∧
    ordersAfter (.addOrder PyValue.none) clientInitOrders =
      .ok [PyValue.none] := by
  refine ⟨?_, ?_, ?_⟩
  · exact orders_invariant_spec_c10.2.1 (.addOrder (.objL "ShipStationOrder" []))
      clientInitOrders [.objL "ShipStationOrder" []] orders_invariant_spec_c10.1
      rfl
  · exact orders_invariant_spec_c10.2.2.1 (.str "not an order") clientInitOrders
      (by simp) (by decide)
  · exact orders_invariant_spec_c10.2.2.2 clientInitOrders

/-! ## Claim C8 — `get_weight` -/

/-- The value `item.weight.value * item.quantity` contributes for a fully
populated item (0 substituted where a field is absent; the hypotheses of the
theorem rule absence out). -/
def itemContribVal (it : ShipStationItem) : ℚ :=
  ((it.weight.bind ShipStationWeight.value).getD 0) * (it.quantity.getD 0)

/-- The container weight contribution: `dimensions.weight.value` when both
are set, else 0. -/
def dimContribVal (o : ShipStationOrder) : ℚ :=
  match o.dimensions with
  | some c => (c.weight.bind ShipStationWeight.value).getD 0
  | Option.none => 0

/-- An item whose weight, weight value and quantity are all set. -/
def itemFullyWeighted (it : ShipStationItem) : Bool :=
  match it.weight with
  | some w => w.value.isSome && it.quantity.isSome
  | Option.none => false

/-- If the order has dimensions with a weight, that weight has a value. -/
def dimWeightOk (o : ShipStationOrder) : Bool :=
  match o.dimensions with
  | some c =>
    match c.weight with
    | some w => w.value.isSome
    | Option.none => true
  | Option.none => true

/-- The end-to-end scenario order: `ShipStationOrder(order_number="1001")`
with one added item of quantity 2 and weight `{value: 3, units: "ounces"}`,
and no container/dimensions. -/
def c8_order : ShipStationOrder :=
  add_item (mkOrder .none (.str "1001") "2024-01-01T00:00:00")
    { mkItem with
      quantity := some 2,
      weight := some (mkWeight (some "ounces") (some 3)) }

/-- Claim C8: on the scenario order `get_weight` returns
`{"units": "ounces", "value": 6}` (`3 * 2` rounds to the integer `6`, equal
to the spec's `6.0`); in general, for an order whose items all carry a weight
value and a quantity (and whose container weight, if present, has a value),
`get_weight` returns units `"ounces"` and the two-decimal rounding of the
item sum plus the container contribution. -/
theorem get_weight_spec_c8 :
    get_weight c8_order = .ok [("units", .str "ounces"), ("value", numVal 6)] ∧
    (∀ o : ShipStationOrder, o.items.all itemFullyWeighted = true →
      dimWeightOk o = true →
      get_weight o = .ok [("units", .str "ounces"),
        ("value", numVal (pyRound2 ((o.items.map itemContribVal).sum
          + dimContribVal o)))]) := by
  constructor
  · simp [c8_order, get_weight, exceptMap, item_weight_contribution, add_item,
      mkOrder, mkItem, mkWeight, weight_result]
    norm_num [pyRound2, roundHalfEven, ratFloor, numVal]
  · intro o h1 h2
    have hmap : exceptMap item_weight_contribution o.items
        = .ok (o.items.map itemContribVal) := by
      apply exceptMap_ok
      intro it hit
      have hfw := List.all_eq_true.mp h1 it hit
      rw [item_weight_contribution]
      cases hw : it.weight with
      | none => simp [itemFullyWeighted, hw] at hfw
      | some w =>
        simp only [itemFullyWeighted, hw, Bool.and_eq_true] at hfw
        obtain ⟨v, hv⟩ := Option.isSome_iff_exists.mp hfw.1
        obtain ⟨q, hq⟩ := Option.isSome_iff_exists.mp hfw.2
        simp [itemContribVal, hw, hv, hq]
    rw [get_weight, hmap]
    cases hd : o.dimensions with
    | none => simp [dimContribVal, hd, weight_result]
    | some c =>
      cases hw : c.weight with
      | none => simp [dimContribVal, hd, hw, weight_result]
      | some w =>
        have hv : w.value.isSome = true := by
          simpa [dimWeightOk, hd, hw] using h2
        obtain ⟨v, hvv⟩ := Option.isSome_iff_exists.mp hv
        simp [dimContribVal, hd, hw, hvv, weight_result]

/-- Claim C8, witness: the general clause applied to the scenario order. -/
theorem get_weight_spec_c8_witness :
    get_weight c8_order = .ok [("units", .str "ounces"),
      ("value", numVal (pyRound2 ((c8_order.items.map itemContribVal).sum
        + dimContribVal c8_order)))] :=
  get_weight_spec_c8.2 c8_order (by decide) (by decide)

/-! ## Claim C1 — wire-format type coercion -/

/-- An order with a boolean field set and integer monetary amounts (so that
`json.dumps` has nothing else to choke on). -/
def c1_order : ShipStationOrder :=
  { (mkOrder .none .none "2024-01-01T00:00:00") with
    gift := .bool true,
    amount_paid := .int 0,
    tax_amount := .int 0,
    shipping_amount := .int 0 }

/-- Claim C1, the code evaluated at the failing inputs: `ShipStationBase.json`
does coerce booleans and numbers to strings, but a nested entity instance
passes through its coercion loop unchanged (the guard
`isinstance(value, type) and value.__class__.split(".")[-1] in __all__` never
matches an instance), and `ShipStationOrder.json` applies no coercion at all:
the dict it dumps holds `gift` as a raw boolean (serialized as JSON `true`,
not the string `"true"`), and a default order's `Decimal` amounts make
`json.dumps` raise `TypeError` instead of emitting string representations. -/
theorem wire_coercion_c1 :
    json_coerce_value (.bool true) = .ok (.str "true") ∧
    json_coerce_value (.bool false) = .ok (.str "false") ∧
    json_coerce_value (.int 7) = .ok (.str "7") ∧
    json_coerce_value (.objL "ShipStationWeight" [("units", .str "ounces")])
      = .ok (.objL "ShipStationWeight" [("units", .str "ounces")]) ∧
    base_json [("non_machineable", .bool true), ("store_id", .int 12345)]
      = .ok (.dictL [("nonMachineable", .str "true"), ("storeId", .str "12345")]) ∧
    (match order_as_dict c1_order with
      | .ok d => d.lookup "gift"
      | .error _ => Option.none) = some (.bool true) ∧
    exceptOk (order_json c1_order) = true ∧
    order_json (mkOrder .none .none "2024-01-01T00:00:00") =
      .error (.typeError "Object is not JSON serializable") := by
  refine ⟨rfl, rfl, rfl, rfl, rfl, rfl, ?_, rfl⟩
  have hw : get_weight c1_order = .ok [("units", .str "ounces"),
      ("value", .int 0)] := by
    simp [get_weight, c1_order, mkOrder, exceptMap]
    norm_num [weight_result, pyRound2, roundHalfEven, ratFloor, numVal]
  have hitems : c1_order.items = [] := rfl
  have hdims : c1_order.dimensions = Option.none := rfl
  simp only [order_json, order_as_dict, hw, hitems, hdims, exceptMap]
  decide

end ShipStation
